import Mathlib

/-!
Verification development for the Echo Audit App: a shallow embedding of the
deterministic scoring/compliance engine (`utils/scoring.ts`, `types.ts`) and
the project/audit repository and auth guard (`services/storage.ts`).

Modelling conventions:
- The browser key-value store (`localStorage` behind the async `storageAPI`
  polyfill) is embedded as typed association lists keyed by the same string
  keys the source builds (`"user:" ++ userId`, `"project:" ++ projectId`, ...).
  JSON serialisation round-trips records unchanged, so values are stored as
  typed records directly.
- Nondeterministic inputs of the source (`Date.now()`, ISO timestamps,
  `Math.random`-based fresh IDs) are passed as explicit arguments.
- PBKDF2-SHA256 (`hashPassword`) is a deterministic key derivation with a
  fixed salt; it is modelled as an injective tagging function, which preserves
  exactly what the login flow observes: equal passwords hash equal, distinct
  passwords hash distinct.
- Thrown `Error`s are modelled as `Except String`, carrying the source's
  message strings.
- JS severities are runtime strings (the `Severity` enum values); a violation
  object coming from the external model may also lack the field, so severity
  is modelled as `Option String` and the source's `weights[v.severity] || 0`
  lookup as a total function that is `0` off the four known severities.
-/

/-! ## Key-value store primitives -/

/-- Association-list model of the string-keyed store: first binding wins. -/
def kvGet {α : Type} (m : List (String × α)) (k : String) : Option α :=
  (m.find? (fun p => p.1 == k)).map (·.2)

/-- `localStorage.setItem`: overwrite any existing binding for `k`. -/
def kvSet {α : Type} (m : List (String × α)) (k : String) (v : α) :
    List (String × α) :=
  (k, v) :: m.filter (fun p => p.1 != k)

/-- `localStorage.removeItem`. -/
def kvDelete {α : Type} (m : List (String × α)) (k : String) :
    List (String × α) :=
  m.filter (fun p => p.1 != k)

/-! ## Data model (`types.ts`) -/

/-- `Violation` from `types.ts`, restricted to the fields the scoring engine
and repository read (`severity`, `wcag_criterion`); the remaining evidence
fields are carried as opaque strings with defaults. `severity` is `Option
String` because at runtime the enum is a plain string and external input may
omit or mangle it. -/
structure Violation where
  severity : Option String
  wcag_criterion : String
  title : String := ""
  description : String := ""
  user_impact : String := ""
  deriving Repr, DecidableEq

structure ComplianceLevel where
  pass : Bool
  violations : Nat
  deriving Repr, DecidableEq

/-- `WcagCompliance`; `level_aaa` is the single-field record
`{ not_tested : boolean }` flattened into `level_aaa_not_tested`. -/
structure WcagCompliance where
  level_a : ComplianceLevel
  level_aa : ComplianceLevel
  level_aaa_not_tested : Bool
  deriving Repr, DecidableEq

structure AuditSummary where
  total_violations : Nat
  critical : Nat
  high : Nat
  medium : Nat
  low : Nat
  deriving Repr, DecidableEq

structure AuditReport where
  overall_score : Int
  wcag_compliance : WcagCompliance
  violations : List Violation
  summary : AuditSummary
  analyzed_at : String
  deriving Repr, DecidableEq

structure User where
  userId : String
  email : String
  passwordHash : String
  displayName : String
  createdAt : String
  lastLoginAt : String
  deriving Repr, DecidableEq

structure Project where
  projectId : String
  userId : String
  projectName : String
  websiteUrl : Option String
  description : Option String
  createdAt : String
  updatedAt : String
  auditCount : Nat
  latestScore : Int
  deriving Repr, DecidableEq

/-- `AuditRecord`; the nested `wcagCompliance` and `violationsBySeverity`
objects are flattened into prefixed fields. -/
structure AuditRecord where
  auditId : String
  projectId : String
  userId : String
  auditVersion : Nat
  timestamp : String
  accessibilityScore : Int
  wcagLevelA : Bool
  wcagLevelAA : Bool
  wcagLevelAAA : Bool
  totalViolations : Nat
  sevCritical : Nat
  sevHigh : Nat
  sevMedium : Nat
  sevLow : Nat
  fullReport : AuditReport
  notes : String
  deriving Repr, DecidableEq

/-! ## Scoring engine (`utils/scoring.ts`) -/

/-- The `weights` lookup `weights[violation.severity] || 0` in
`calculateAccessibilityScore`: 0 for an unknown or missing severity. -/
def severityWeight : Option String → Int
  | some "critical" => 15
  | some "high" => 8
  | some "medium" => 4
  | some "low" => 2
  | _ => 0

/-- `calculateAccessibilityScore`: start at 100, subtract each violation's
weight, floor at 0. The source's final `Math.round` is the identity because
the running total only ever has integer weights subtracted from 100. -/
def calculateAccessibilityScore (violations : List Violation) : Int :=
  max 0 (violations.foldl (fun score v => score - severityWeight v.severity) 100)

/-- The Level-A regex `^1\.1\.1|^1\.2\.[1-3]|...` expanded: each alternative
is start-anchored, so the regex tests whether the criterion string begins with
one of these criterion numbers. -/
def levelAPatterns : List String :=
  ["1.1.1", "1.2.1", "1.2.2", "1.2.3", "1.3.1", "1.3.2", "1.3.3", "1.4.1",
   "2.1.1", "2.1.2", "2.2.1", "2.2.2", "2.3.1", "2.4.1", "2.4.2", "2.4.3",
   "2.4.4", "3.1.1", "3.2.1", "3.2.2", "3.3.1", "3.3.2", "4.1.1", "4.1.2"]

/-- The Level-AA regex `^1\.2\.[4-5]|^1\.4\.[3-5]|...` expanded. -/
def levelAAPatterns : List String :=
  ["1.2.4", "1.2.5", "1.4.3", "1.4.4", "1.4.5", "2.4.5", "2.4.6", "2.4.7",
   "3.1.2", "3.2.3", "3.2.4", "3.3.3", "3.3.4"]

/-- The Level-AAA regex expanded (computed by the source, informational only:
its matches never reach the returned compliance record). -/
def levelAAAPatterns : List String :=
  ["1.2.6", "1.2.7", "1.2.8", "1.2.9", "1.4.6", "1.4.7", "1.4.8", "1.4.9",
   "2.2.3", "2.2.4", "2.2.5", "2.2.6", "2.3.2", "2.3.3", "2.4.8", "2.4.9",
   "2.4.10", "3.1.3", "3.1.4", "3.1.5", "3.1.6", "3.2.5", "3.3.5", "3.3.6"]

/-- `charsStartWith s p = true` iff the character list `s` starts with `p`. -/
def charsStartWith : List Char → List Char → Bool
  | _, [] => true
  | [], _ :: _ => false
  | c :: cs, d :: ds => c == d && charsStartWith cs ds

/-- `s` starts with the literal `p` (JS `/^p/.test(s)` for a literal `p`). -/
def strStartsWith (s p : String) : Bool :=
  charsStartWith s.toList p.toList

/-- `regex.test(v.wcag_criterion)` for an alternation of start-anchored
literals: true iff some pattern is a prefix of the criterion string. -/
def matchesPatternSet (patterns : List String) (criterion : String) : Bool :=
  patterns.any (fun p => strStartsWith criterion p)

/-- `determineWCAGCompliance` from `utils/scoring.ts`. -/
def determineWCAGCompliance (violations : List Violation) : WcagCompliance :=
  let levelAViolations :=
    violations.filter (fun v => matchesPatternSet levelAPatterns v.wcag_criterion)
  let levelAAViolations :=
    violations.filter (fun v => matchesPatternSet levelAAPatterns v.wcag_criterion)
  { level_a :=
      { pass := levelAViolations.length == 0
        violations := levelAViolations.length }
    level_aa :=
      { pass := levelAViolations.length == 0 && levelAAViolations.length == 0
        violations := levelAAViolations.length }
    level_aaa_not_tested := true }

/-- `generateAuditReport`; `analyzedAt` stands for
`new Date().toISOString()`. -/
def generateAuditReport (violations : List Violation) (analyzedAt : String) :
    AuditReport :=
  let overall_score := calculateAccessibilityScore violations
  let wcag_compliance := determineWCAGCompliance violations
  let summary : AuditSummary :=
    { total_violations := violations.length
      critical := (violations.filter (fun v => v.severity == some "critical")).length
      high := (violations.filter (fun v => v.severity == some "high")).length
      medium := (violations.filter (fun v => v.severity == some "medium")).length
      low := (violations.filter (fun v => v.severity == some "low")).length }
  { overall_score, wcag_compliance, violations, summary,
    analyzed_at := analyzedAt }

/-! ## Repository state (`services/storage.ts`) -/

/-- The key-value store split by key namespace. The source keys all live in
one `localStorage`, but every key carries a distinct prefix
(`user:`, `user_email:`, `project:`, `user_projects:`, `audit:`,
`project_audits:`); the full key strings are kept inside each map. -/
structure Store where
  users : List (String × User)
  emailIndex : List (String × String)
  projects : List (String × Project)
  userProjects : List (String × List String)
  audits : List (String × AuditRecord)
  projectAudits : List (String × List String)
  deriving Repr, DecidableEq

/-- Repository state plus the in-memory `loginAttempts` map
(`email -> { count, lastAttempt }`, timestamps in ms). -/
structure AuthState where
  store : Store
  loginAttempts : List (String × (Nat × Nat))
  deriving Repr, DecidableEq

deriving instance DecidableEq for Except

/-- `email.toLowerCase()` (ASCII case folding, which covers the email keys
the source builds). -/
def strToLower (s : String) : String :=
  String.mk (s.toList.map Char.toLower)

def MAX_LOGIN_ATTEMPTS : Nat := 5

def LOCKOUT_DURATION : Nat := 15 * 60 * 1000

/-- `sanitizeInput`: the five sequential global replaces; none of the
replacement entities contains a character from the replaced set, so the
sequential passes equal one character-by-character pass. -/
def sanitizeInput (input : String) : String :=
  String.join (input.toList.map (fun c =>
    if c = '<' then "&lt;"
    else if c = '>' then "&gt;"
    else if c = '"' then "&quot;"
    else if c = '\'' then "&#x27;"
    else if c = '/' then "&#x2F;"
    else String.singleton c))

/-- `hashPassword`: PBKDF2-SHA256, 100000 iterations, fixed salt
`echo-audit-salt-v1`. Modelled as an injective deterministic tag, which is
all the login comparison observes. -/
def hashPassword (password : String) : String :=
  "pbkdf2-sha256-100000-echo-audit-salt-v1:" ++ password

/-- `createUser`. NOTE (faithful to the source): the duplicate-email check
reads the index inside a `try` block and throws the conflict `Error` from
inside that same block, so the blanket `catch` swallows it either way —
creation always proceeds, and the email-index entry is overwritten.
`userId` stands for the fresh `user_{Date.now()}_{random}` ID and `nowIso`
for `new Date().toISOString()`. -/
def createUser (s : Store) (email password displayName : String)
    (userId nowIso : String) : User × Store :=
  let emailLower := strToLower email
  let passwordHash := hashPassword password
  let user : User :=
    { userId
      email := emailLower
      passwordHash
      displayName := sanitizeInput displayName
      createdAt := nowIso
      lastLoginAt := nowIso }
  (user,
   { s with
      users := kvSet s.users ("user:" ++ userId) user
      emailIndex := kvSet s.emailIndex ("user_email:" ++ emailLower) userId })

/-- The `try { ... } catch { track attempt; throw generic }` body of
`loginUser`: index lookup, user fetch, hash comparison. Any failure lands in
the catch, which increments this email's attempt counter (`count+1`,
`lastAttempt := now`) and rethrows the single generic message. -/
def loginTryBody (st : AuthState) (emailLower password : String)
    (now : Nat) (nowIso : String) : Except String User × AuthState :=
  let failed : Except String User × AuthState :=
    let current := (kvGet st.loginAttempts emailLower).getD (0, 0)
    let attempts := kvSet st.loginAttempts emailLower (current.1 + 1, now)
    (Except.error "Invalid email or password", { st with loginAttempts := attempts })
  match kvGet st.store.emailIndex ("user_email:" ++ emailLower) with
  | none => failed
  | some userId =>
    match kvGet st.store.users ("user:" ++ userId) with
    | none => failed
    | some user =>
      if hashPassword password ≠ user.passwordHash then failed
      else
        let user' := { user with lastLoginAt := nowIso }
        let store' := { st.store with users := kvSet st.store.users ("user:" ++ userId) user' }
        (Except.ok user',
         { st with loginAttempts := kvDelete st.loginAttempts emailLower, store := store' })

/-- `loginUser`: rate-limit gate (the lockout throw happens before the try
block, so a rate-limited attempt does not touch the counter), then the try
body. `now` is `Date.now()` in ms, `nowIso` the ISO timestamp written to
`lastLoginAt`. -/
def loginUser (st : AuthState) (email password : String)
    (now : Nat) (nowIso : String) : Except String User × AuthState :=
  let emailLower := strToLower email
  match kvGet st.loginAttempts emailLower with
  | some (count, lastAttempt) =>
    if MAX_LOGIN_ATTEMPTS ≤ count then
      let timeSinceLast := now - lastAttempt
      if timeSinceLast < LOCKOUT_DURATION then
        let minutesLeft := (LOCKOUT_DURATION - timeSinceLast + 59999) / 60000
        (Except.error ("Too many login attempts. Please try again in " ++
          toString minutesLeft ++ " minutes."), st)
      else
        loginTryBody
          { st with loginAttempts := kvDelete st.loginAttempts emailLower }
          emailLower password now nowIso
    else
      loginTryBody st emailLower password now nowIso
  | none => loginTryBody st emailLower password now nowIso

/-- `Partial<Project>` restricted to the fields call sites pass (`saveAudit`
passes `auditCount`/`latestScore`; the UI passes the three string fields). -/
structure ProjectUpdate where
  projectName : Option String := none
  websiteUrl : Option String := none
  description : Option String := none
  auditCount : Option Nat := none
  latestScore : Option Int := none
  deriving Repr, DecidableEq

/-- `updateProject`: load, sanitize the string updates, spread over the
record, stamp `updatedAt`. -/
def updateProject (s : Store) (projectId : String) (u : ProjectUpdate)
    (nowIso : String) : Except String Store :=
  match kvGet s.projects ("project:" ++ projectId) with
  | none => Except.error "Project not found"
  | some project =>
    let updated : Project :=
      { project with
          projectName := match u.projectName with
            | some n => sanitizeInput n
            | none => project.projectName
          websiteUrl := match u.websiteUrl with
            | some w => some (sanitizeInput w)
            | none => project.websiteUrl
          description := match u.description with
            | some d => some (sanitizeInput d)
            | none => project.description
          auditCount := u.auditCount.getD project.auditCount
          latestScore := u.latestScore.getD project.latestScore
          updatedAt := nowIso }
    Except.ok { s with projects := kvSet s.projects ("project:" ++ projectId) updated }

/-- Insertion step for the descending-`auditVersion` sort
(`.sort((a, b) => b.auditVersion - a.auditVersion)`). -/
def insertByVersionDesc (a : AuditRecord) :
    List AuditRecord → List AuditRecord
  | [] => [a]
  | b :: bs =>
    if b.auditVersion ≤ a.auditVersion then a :: b :: bs
    else b :: insertByVersionDesc a bs

/-- Descending sort by `auditVersion`. -/
def sortByVersionDesc (l : List AuditRecord) : List AuditRecord :=
  l.foldr insertByVersionDesc []

/-- `getProjectAudits`: load the index (missing index means `[]`), fetch each
record skipping dangling IDs, sort by version descending. -/
def getProjectAudits (s : Store) (projectId : String) : List AuditRecord :=
  match kvGet s.projectAudits ("project_audits:" ++ projectId) with
  | none => []
  | some auditIds =>
    sortByVersionDesc (auditIds.filterMap (fun i => kvGet s.audits ("audit:" ++ i)))

/-- `deleteProject`: delete every audit returned by `getProjectAudits` (by
the record's own `auditId` field), the audit index, the project record, then
filter the project ID out of the caller-supplied user's project index
(tolerating a missing index). NOTE (faithful to the source): no ownership
check — `userId` is never compared against `project.userId`. -/
def deleteProject (s : Store) (projectId userId : String) : Store :=
  let audits := getProjectAudits s projectId
  let s1 := { s with
    audits := audits.foldl (fun m (a : AuditRecord) => kvDelete m ("audit:" ++ a.auditId)) s.audits }
  let s2 := { s1 with
    projectAudits := kvDelete s1.projectAudits ("project_audits:" ++ projectId) }
  let s3 := { s2 with
    projects := kvDelete s2.projects ("project:" ++ projectId) }
  match kvGet s3.userProjects ("user_projects:" ++ userId) with
  | none => s3
  | some projectIds =>
    let filtered := projectIds.filter (fun i => i != projectId)
    { s3 with userProjects := kvSet s3.userProjects ("user_projects:" ++ userId) filtered }

/-- `saveAudit`: load project (`NotFound`), ownership check (`Unauthorized`),
re-derive the deterministic report from the caller's `violations`, persist
the record under the fresh `auditId`, append to the audit index (creating it
if absent), then update the project's cached `auditCount`/`latestScore`. -/
def saveAudit (s : Store) (projectId userId : String)
    (auditReport : AuditReport) (auditId nowIso : String) :
    Except String (AuditRecord × Store) :=
  match kvGet s.projects ("project:" ++ projectId) with
  | none => Except.error "Project not found"
  | some project =>
    if project.userId ≠ userId then Except.error "Unauthorized"
    else
      let auditVersion := project.auditCount + 1
      let deterministicReport := generateAuditReport auditReport.violations nowIso
      let audit : AuditRecord :=
        { auditId, projectId, userId, auditVersion
          timestamp := nowIso
          accessibilityScore := deterministicReport.overall_score
          wcagLevelA := deterministicReport.wcag_compliance.level_a.pass
          wcagLevelAA := deterministicReport.wcag_compliance.level_aa.pass
          wcagLevelAAA := !deterministicReport.wcag_compliance.level_aaa_not_tested
          totalViolations := deterministicReport.summary.total_violations
          sevCritical := deterministicReport.summary.critical
          sevHigh := deterministicReport.summary.high
          sevMedium := deterministicReport.summary.medium
          sevLow := deterministicReport.summary.low
          fullReport := deterministicReport
          notes := "" }
      let s1 := { s with audits := kvSet s.audits ("audit:" ++ auditId) audit }
      let newIndex :=
        match kvGet s1.projectAudits ("project_audits:" ++ projectId) with
        | some auditIds => auditIds ++ [auditId]
        | none => [auditId]
      let s2 :=
        { s1 with projectAudits := kvSet s1.projectAudits ("project_audits:" ++ projectId) newIndex }
      match updateProject s2 projectId
          { auditCount := some auditVersion
            latestScore := some audit.accessibilityScore } nowIso with
      | Except.error e => Except.error e
      | Except.ok s3 => Except.ok (audit, s3)
/-! ## Laws of the key-value primitives -/

theorem kvGet_kvDelete {α : Type} (m : List (String × α)) (k' k : String) :
    kvGet (kvDelete m k') k = if k = k' then none else kvGet m k := by
  induction m with
  | nil => simp [kvGet, kvDelete]
  | cons p m ih =>
    simp only [kvGet, kvDelete] at ih ⊢
    rw [List.filter_cons]
    by_cases hp : p.1 = k' <;> by_cases hk2 : p.1 = k <;>
      simp_all [bne]

theorem kvGet_kvSet {α : Type} (m : List (String × α)) (k' k : String) (v : α) :
    kvGet (kvSet m k' v) k = if k = k' then some v else kvGet m k := by
  by_cases hk : k = k'
  · subst hk
    simp [kvGet, kvSet]
  · rw [if_neg hk]
    have h2 := kvGet_kvDelete m k' k
    rw [if_neg hk] at h2
    have hstep : kvGet (kvSet m k' v) k = kvGet (kvDelete m k') k := by
      unfold kvGet kvSet
      rw [List.find?_cons_of_neg (p := fun (q : String × α) => q.1 == k)]
      · rfl
      · simp only [beq_iff_eq]
        intro he
        exact hk he.symm
    rw [hstep]
    exact h2

/-! ## Arithmetic and list helper lemmas -/

theorem foldl_sub_severityWeight (l : List Violation) (a : Int) :
    l.foldl (fun score v => score - severityWeight v.severity) a =
      a - (l.map (fun v => severityWeight v.severity)).sum := by
  induction l generalizing a with
  | nil => simp
  | cons v l ih =>
    simp only [List.foldl_cons, List.map_cons, List.sum_cons, ih]
    ring

theorem severityWeight_nonneg (os : Option String) : 0 ≤ severityWeight os := by
  unfold severityWeight
  split <;> norm_num

theorem weights_sum_nonneg (l : List Violation) :
    0 ≤ (l.map (fun v => severityWeight v.severity)).sum := by
  apply List.sum_nonneg
  intro x hx
  obtain ⟨v, _, rfl⟩ := List.mem_map.mp hx
  exact severityWeight_nonneg v.severity

theorem mem_insertByVersionDesc {a b : AuditRecord} {l : List AuditRecord} :
    a ∈ insertByVersionDesc b l ↔ a = b ∨ a ∈ l := by
  induction l with
  | nil => simp [insertByVersionDesc]
  | cons c l ih =>
    unfold insertByVersionDesc
    split
    · simp [List.mem_cons]
    · simp only [List.mem_cons, ih]
      tauto

theorem mem_sortByVersionDesc {a : AuditRecord} {l : List AuditRecord} :
    a ∈ sortByVersionDesc l ↔ a ∈ l := by
  unfold sortByVersionDesc
  induction l with
  | nil => simp
  | cons c l ih =>
    simp only [List.foldr_cons, mem_insertByVersionDesc, List.mem_cons, ih]

theorem kvGet_foldl_delete_audits
    (l : List AuditRecord) (m : List (String × AuditRecord)) (k : String) :
    kvGet (l.foldl (fun m (a : AuditRecord) => kvDelete m ("audit:" ++ a.auditId)) m) k =
      if ∃ a ∈ l, "audit:" ++ a.auditId = k then none else kvGet m k := by
  induction l generalizing m with
  | nil => simp
  | cons b l ih =>
    simp only [List.foldl_cons, ih, kvGet_kvDelete]
    by_cases hb : "audit:" ++ b.auditId = k
    · have hex : ∃ a ∈ b :: l, "audit:" ++ a.auditId = k := ⟨b, List.mem_cons_self b l, hb⟩
      rw [if_pos hex]
      by_cases hex2 : ∃ a ∈ l, "audit:" ++ a.auditId = k
      · rw [if_pos hex2]
      · rw [if_neg hex2, if_pos hb.symm]
    · by_cases hex2 : ∃ a ∈ l, "audit:" ++ a.auditId = k
      · have hex : ∃ a ∈ b :: l, "audit:" ++ a.auditId = k := by
          obtain ⟨a, ha, hak⟩ := hex2
          exact ⟨a, List.mem_cons_of_mem b ha, hak⟩
        rw [if_pos hex2, if_pos hex]
      · have hex : ¬ ∃ a ∈ b :: l, "audit:" ++ a.auditId = k := by
          rintro ⟨a, ha, hak⟩
          rcases List.mem_cons.mp ha with rfl | ha2
          · exact hb hak
          · exact hex2 ⟨a, ha2, hak⟩
        rw [if_neg hex2, if_neg hex, if_neg (fun he => hb he.symm)]

/-! ## Concrete fixtures used by witnesses and scenario claims -/

/-- The end-to-end scenario violation: critical severity, criterion 1.4.3. -/
def v143 : Violation := { severity := some "critical", wcag_criterion := "1.4.3" }

/-- A freshly created project (auditCount 0) owned by user `u1`. -/
def projP : Project :=
  { projectId := "p1", userId := "u1", projectName := "Site", websiteUrl := none,
    description := none, createdAt := "t0", updatedAt := "t0",
    auditCount := 0, latestScore := 0 }

/-- Store holding only the fresh project `p1`. -/
def store0 : Store :=
  { users := [], emailIndex := [], projects := [("project:p1", projP)],
    userProjects := [], audits := [], projectAudits := [] }

/-- A caller-supplied report over `[v143]` with forged aggregate fields
(`overall_score = 999`, all-pass compliance, zeroed summary). -/
def forgedReport : AuditReport :=
  { overall_score := 999
    wcag_compliance :=
      { level_a := { pass := true, violations := 0 }
        level_aa := { pass := true, violations := 0 }
        level_aaa_not_tested := false }
    violations := [v143]
    summary := { total_violations := 0, critical := 0, high := 0, medium := 0, low := 0 }
    analyzed_at := "forged" }

/-- The record the save of `forgedReport` actually persists. -/
def savedAudit143 : AuditRecord :=
  { auditId := "a1", projectId := "p1", userId := "u1", auditVersion := 1,
    timestamp := "t1", accessibilityScore := 85, wcagLevelA := true,
    wcagLevelAA := false, wcagLevelAAA := false, totalViolations := 1,
    sevCritical := 1, sevHigh := 0, sevMedium := 0, sevLow := 0,
    fullReport := generateAuditReport [v143] "t1", notes := "" }

/-- The store after that save. -/
def savedStore143 : Store :=
  { users := [], emailIndex := []
    projects := [("project:p1", { projP with auditCount := 1, latestScore := 85, updatedAt := "t1" })]
    userProjects := [], audits := [("audit:a1", savedAudit143)]
    projectAudits := [("project_audits:p1", ["a1"])] }

/-- Registered user fixture. -/
def userA : User :=
  { userId := "uA", email := "alice@x.com", passwordHash := hashPassword "right"
    displayName := "Alice", createdAt := "t0", lastLoginAt := "t0" }

/-- Auth state with `userA` registered and no tracked login attempts. -/
def authSt : AuthState :=
  { store := { users := [("user:uA", userA)]
               emailIndex := [("user_email:alice@x.com", "uA")]
               projects := [], userProjects := [], audits := [], projectAudits := [] }
    loginAttempts := [] }

/-- States after one..five consecutive failed logins for `alice@x.com`. -/
def failSt1 : AuthState := (loginUser authSt "alice@x.com" "bad" 1000 "i").2

def failSt2 : AuthState := (loginUser failSt1 "alice@x.com" "bad" 2000 "i").2

def failSt3 : AuthState := (loginUser failSt2 "alice@x.com" "bad" 3000 "i").2

def failSt4 : AuthState := (loginUser failSt3 "alice@x.com" "bad" 4000 "i").2

def failSt5 : AuthState := (loginUser failSt4 "alice@x.com" "bad" 5000 "i").2

/-- Audit record fixture referenced by project `p1`'s audit index. -/
def auditRec1 : AuditRecord := { savedAudit143 with auditId := "a1" }

/-- Store with project `p1` owned by `u1`, one audit, and the owner's
project index. -/
def delStore : Store :=
  { users := [], emailIndex := [], projects := [("project:p1", projP)]
    userProjects := [("user_projects:u1", ["p1"])]
    audits := [("audit:a1", auditRec1)]
    projectAudits := [("project_audits:p1", ["a1"])] }

/-- Store whose email index already maps `alice@x.com` to `uA`. -/
def dupStore : Store :=
  { users := [("user:uA", userA)], emailIndex := [("user_email:alice@x.com", "uA")]
    projects := [], userProjects := [], audits := [], projectAudits := [] }

/-- Violation fixture with a Level-A criterion. -/
def v111 : Violation := { severity := some "critical", wcag_criterion := "1.1.1" }

/-- Violation fixture with criterion `2.4.10` (an AAA-set criterion). -/
def v2410 : Violation := { severity := some "low", wcag_criterion := "2.4.10" }

/-! ## Claims -/

/-- C2: for every violation list, `score(violations)` equals
`max(0, round(100 - Σ weights))` with weights critical 15, high 8, medium 4,
low 2 and 0 for an unknown or missing severity (rounding is the identity on
these integers); consequently the result is an integer in `[0, 100]`, and the
score of the empty list is 100. -/
theorem score_formula_and_bounds (violations : List Violation) :
    calculateAccessibilityScore violations =
      max 0 (100 - (violations.map (fun v => severityWeight v.severity)).sum) ∧
    0 ≤ calculateAccessibilityScore violations ∧
    calculateAccessibilityScore violations ≤ 100 ∧
    calculateAccessibilityScore [] = 100 ∧
    (∀ os : Option String,
      severityWeight os =
        if os = some "critical" then 15
        else if os = some "high" then 8
        else if os = some "medium" then 4
        else if os = some "low" then 2
        else 0) := by
  refine ⟨?_, ?_, ?_, by decide, ?_⟩
  · unfold calculateAccessibilityScore
    rw [foldl_sub_severityWeight]
  · exact le_max_left 0 _
  · unfold calculateAccessibilityScore
    rw [foldl_sub_severityWeight]
    have h := weights_sum_nonneg violations
    apply max_le
    · norm_num
    · omega
  · intro os
    unfold severityWeight
    split <;> simp_all

/-- C3: `level_aa.pass` is true iff `level_a.pass` is true and zero
violations match the Level-AA pattern set, so AA compliance implies A
compliance; and a single violation with criterion `1.1.1` makes
`level_a.pass` (hence `level_aa.pass`) false even though no Level-AA-pattern
violation exists. -/
theorem levelAA_pass_iff (violations : List Violation) :
    ((determineWCAGCompliance violations).level_aa.pass = true ↔
      ((determineWCAGCompliance violations).level_a.pass = true ∧
        (violations.filter
          (fun v => matchesPatternSet levelAAPatterns v.wcag_criterion)).length = 0)) ∧
    ((determineWCAGCompliance violations).level_aa.pass = true →
      (determineWCAGCompliance violations).level_a.pass = true) ∧
    (∀ v : Violation, v.wcag_criterion = "1.1.1" →
      (determineWCAGCompliance [v]).level_a.pass = false ∧
      (determineWCAGCompliance [v]).level_aa.pass = false ∧
      (determineWCAGCompliance [v]).level_aa.violations = 0) := by
  refine ⟨?_, ?_, ?_⟩
  · simp [determineWCAGCompliance]
  · simp only [determineWCAGCompliance]
    simp only [Bool.and_eq_true, beq_iff_eq]
    tauto
  · intro v hv
    have hA : matchesPatternSet levelAPatterns "1.1.1" = true := by decide
    have hAA : matchesPatternSet levelAAPatterns "1.1.1" = false := by decide
    refine ⟨?_, ?_, ?_⟩ <;> simp [determineWCAGCompliance, hv, hA, hAA]

/-- Witness for C3 at the concrete violation `v111`. -/
theorem levelAA_pass_iff_witness :
    (determineWCAGCompliance [v111]).level_a.pass = false ∧
    (determineWCAGCompliance [v111]).level_aa.pass = false ∧
    (determineWCAGCompliance [v111]).level_aa.violations = 0 :=
  (levelAA_pass_iff [v111]).2.2 v111 rfl

/-- C10: the pattern sets are anchored only at the start of the criterion
string, so any criterion that merely begins with a Level-A pattern counts as
a Level-A match; in particular `2.4.10` (in the AAA set) starts with the
Level-A pattern `2.4.1`, so its presence alone makes `level_a.pass` and
`level_aa.pass` false. -/
theorem levelA_prefix_anchoring_overmatch :
    (∀ (criterion p : String), p ∈ levelAPatterns →
      strStartsWith criterion p = true →
      matchesPatternSet levelAPatterns criterion = true) ∧
    ("2.4.1" ∈ levelAPatterns ∧ "2.4.10" ∈ levelAAAPatterns ∧
      strStartsWith "2.4.10" "2.4.1" = true) ∧
    (∀ (violations : List Violation) (v : Violation), v ∈ violations →
      v.wcag_criterion = "2.4.10" →
      (determineWCAGCompliance violations).level_a.pass = false ∧
      (determineWCAGCompliance violations).level_aa.pass = false) := by
  refine ⟨?_, by decide, ?_⟩
  · intro criterion p hp hpre
    unfold matchesPatternSet
    rw [List.any_eq_true]
    exact ⟨p, hp, hpre⟩
  · intro violations v hv hcrit
    have hmatch : matchesPatternSet levelAPatterns v.wcag_criterion = true := by
      rw [hcrit]
      decide
    have hmem : v ∈ violations.filter
        (fun v => matchesPatternSet levelAPatterns v.wcag_criterion) :=
      List.mem_filter.mpr ⟨hv, hmatch⟩
    have hlen : (violations.filter
        (fun v => matchesPatternSet levelAPatterns v.wcag_criterion)).length ≠ 0 := by
      intro h0
      rw [List.length_eq_zero] at h0
      rw [h0] at hmem
      exact List.not_mem_nil v hmem
    have hbeq : ((violations.filter
        (fun v => matchesPatternSet levelAPatterns v.wcag_criterion)).length == 0) = false :=
      beq_eq_false_iff_ne.mpr hlen
    constructor
    · simp [determineWCAGCompliance, hbeq]
    · simp [determineWCAGCompliance, hbeq]

/-- Witness for C10 at the concrete violation `v2410`. -/
theorem levelA_prefix_anchoring_overmatch_witness :
    matchesPatternSet levelAPatterns "2.4.10" = true ∧
    (determineWCAGCompliance [v2410]).level_a.pass = false ∧
    (determineWCAGCompliance [v2410]).level_aa.pass = false :=
  ⟨levelA_prefix_anchoring_overmatch.1 "2.4.10" "2.4.1" (by decide) (by decide),
   (levelA_prefix_anchoring_overmatch.2.2 [v2410] v2410 (by decide) rfl).1,
   (levelA_prefix_anchoring_overmatch.2.2 [v2410] v2410 (by decide) rfl).2⟩

/-- Projection of a successful `saveAudit` result onto the persisted record. -/
def savedRecord (r : Except String (AuditRecord × Store)) : Option AuditRecord :=
  r.toOption.map (·.1)

/-- Projection of a successful `saveAudit` result onto the updated store. -/
def savedStoreOf (r : Except String (AuditRecord × Store)) : Option Store :=
  r.toOption.map (·.2)

/-- C4: saving an audit with violations `[{critical, 1.4.3}]` against the
fresh project `p1` (auditCount 0) yields `auditVersion = 1`,
`accessibilityScore = 85`, `level_a.pass = true` (1.4.3 is not in the
Level-A set), `level_aa.pass = false`, and leaves the project with
`auditCount = 1` and `latestScore = 85`. -/
theorem end_to_end_first_audit_scenario :
    projP.auditCount = 0 ∧
    saveAudit store0 "p1" "u1" forgedReport "a1" "t1" =
      Except.ok (savedAudit143, savedStore143) ∧
    savedAudit143.auditVersion = 1 ∧
    savedAudit143.accessibilityScore = 85 ∧
    savedAudit143.fullReport.wcag_compliance.level_a.pass = true ∧
    savedAudit143.fullReport.wcag_compliance.level_aa.pass = false ∧
    savedAudit143.wcagLevelA = true ∧
    savedAudit143.wcagLevelAA = false ∧
    (kvGet savedStore143.projects "project:p1").map Project.auditCount = some 1 ∧
    (kvGet savedStore143.projects "project:p1").map Project.latestScore = some 85 := by
  decide

/-- C1: every persisted audit's score, compliance flags, violation tallies
and full report are exactly the Scoring Engine's output on the
caller-supplied report's `violations`; the caller's `overall_score`,
`summary` and `wcag_compliance` fields never influence the result. -/
theorem saveAudit_rederives_scoring
    (s : Store) (projectId userId : String) (auditReport : AuditReport)
    (auditId nowIso : String) (audit : AuditRecord) (s' : Store)
    (h : saveAudit s projectId userId auditReport auditId nowIso =
      Except.ok (audit, s')) :
    audit.accessibilityScore =
      (generateAuditReport auditReport.violations nowIso).overall_score ∧
    audit.wcagLevelA =
      (generateAuditReport auditReport.violations nowIso).wcag_compliance.level_a.pass ∧
    audit.wcagLevelAA =
      (generateAuditReport auditReport.violations nowIso).wcag_compliance.level_aa.pass ∧
    audit.wcagLevelAAA =
      !(generateAuditReport auditReport.violations nowIso).wcag_compliance.level_aaa_not_tested ∧
    audit.totalViolations =
      (generateAuditReport auditReport.violations nowIso).summary.total_violations ∧
    audit.sevCritical =
      (generateAuditReport auditReport.violations nowIso).summary.critical ∧
    audit.sevHigh =
      (generateAuditReport auditReport.violations nowIso).summary.high ∧
    audit.sevMedium =
      (generateAuditReport auditReport.violations nowIso).summary.medium ∧
    audit.sevLow =
      (generateAuditReport auditReport.violations nowIso).summary.low ∧
    audit.fullReport = generateAuditReport auditReport.violations nowIso ∧
    kvGet s'.audits ("audit:" ++ auditId) = some audit ∧
    (∀ other : AuditReport, other.violations = auditReport.violations →
      saveAudit s projectId userId other auditId nowIso =
        saveAudit s projectId userId auditReport auditId nowIso) := by
  have hind : ∀ other : AuditReport, other.violations = auditReport.violations →
      saveAudit s projectId userId other auditId nowIso =
        saveAudit s projectId userId auditReport auditId nowIso := by
    intro other hother
    unfold saveAudit
    rw [hother]
  rcases hp : kvGet s.projects ("project:" ++ projectId) with _ | project
  · unfold saveAudit at h
    rw [hp] at h
    simp at h
  · unfold saveAudit at h
    rw [hp] at h
    simp only [] at h
    by_cases hown : project.userId ≠ userId
    · rw [if_pos hown] at h
      simp at h
    · rw [if_neg hown] at h
      rcases hu : updateProject
          { s with
              audits := kvSet s.audits ("audit:" ++ auditId)
                { auditId, projectId, userId
                  auditVersion := project.auditCount + 1
                  timestamp := nowIso
                  accessibilityScore := (generateAuditReport auditReport.violations nowIso).overall_score
                  wcagLevelA := (generateAuditReport auditReport.violations nowIso).wcag_compliance.level_a.pass
                  wcagLevelAA := (generateAuditReport auditReport.violations nowIso).wcag_compliance.level_aa.pass
                  wcagLevelAAA := !(generateAuditReport auditReport.violations nowIso).wcag_compliance.level_aaa_not_tested
                  totalViolations := (generateAuditReport auditReport.violations nowIso).summary.total_violations
                  sevCritical := (generateAuditReport auditReport.violations nowIso).summary.critical
                  sevHigh := (generateAuditReport auditReport.violations nowIso).summary.high
                  sevMedium := (generateAuditReport auditReport.violations nowIso).summary.medium
                  sevLow := (generateAuditReport auditReport.violations nowIso).summary.low
                  fullReport := generateAuditReport auditReport.violations nowIso
                  notes := "" }
              projectAudits := kvSet s.projectAudits ("project_audits:" ++ projectId)
                (match kvGet s.projectAudits ("project_audits:" ++ projectId) with
                  | some auditIds => auditIds ++ [auditId]
                  | none => [auditId]) }
          projectId
          { auditCount := some (project.auditCount + 1)
            latestScore := some (generateAuditReport auditReport.violations nowIso).overall_score }
          nowIso with e | s3
      · rw [hu] at h
        simp at h
      · rw [hu] at h
        simp only [Except.ok.injEq, Prod.mk.injEq] at h
        obtain ⟨ha, hs⟩ := h
        subst ha
        subst hs
        unfold updateProject at hu
        simp only [] at hu
        rw [hp] at hu
        simp only [Except.ok.injEq] at hu
        subst hu
        refine ⟨rfl, rfl, rfl, rfl, rfl, rfl, rfl, rfl, rfl, rfl, ?_, hind⟩
        simp [kvGet_kvSet]

/-- Witness for C1: the forged-report save against `store0`. -/
theorem saveAudit_rederives_scoring_witness :
    saveAudit store0 "p1" "u1" forgedReport "a1" "t1" =
      Except.ok (savedAudit143, savedStore143) ∧
    savedAudit143.accessibilityScore =
      (generateAuditReport forgedReport.violations "t1").overall_score ∧
    savedAudit143.fullReport = generateAuditReport forgedReport.violations "t1" ∧
    kvGet savedStore143.audits ("audit:" ++ "a1") = some savedAudit143 := by
  have hok : saveAudit store0 "p1" "u1" forgedReport "a1" "t1" =
      Except.ok (savedAudit143, savedStore143) := by decide
  have hthm := saveAudit_rederives_scoring store0 "p1" "u1" forgedReport "a1" "t1"
    savedAudit143 savedStore143 hok
  exact ⟨hok, hthm.1, hthm.2.2.2.2.2.2.2.2.2.1, hthm.2.2.2.2.2.2.2.2.2.2.1⟩

/-- C5 (code bug): account creation against an email whose lowercased form
already has an index entry does not fail — it creates a new user record and
overwrites the existing email-to-userId index entry. In the source, the
conflict `Error` is thrown inside the same `try` block whose blanket `catch`
swallows it. -/
theorem createUser_duplicate_email_not_rejected :
    kvGet dupStore.emailIndex "user_email:alice@x.com" = some "uA" ∧
    kvGet (createUser dupStore "Alice@X.com" "pw2" "Alice2" "uB" "t5").2.emailIndex
      "user_email:alice@x.com" = some "uB" ∧
    kvGet (createUser dupStore "Alice@X.com" "pw2" "Alice2" "uB" "t5").2.users
      "user:uB" = some (createUser dupStore "Alice@X.com" "pw2" "Alice2" "uB" "t5").1 ∧
    (createUser dupStore "Alice@X.com" "pw2" "Alice2" "uB" "t5").1.email =
      "alice@x.com" := by
  decide

/-- The three store components `deleteProject` rewrites, independent of the
final user-index filtering branch. -/
theorem deleteProject_fields (s : Store) (projectId u : String) :
    (deleteProject s projectId u).projects =
      kvDelete s.projects ("project:" ++ projectId) ∧
    (deleteProject s projectId u).audits =
      (getProjectAudits s projectId).foldl
        (fun m (a : AuditRecord) => kvDelete m ("audit:" ++ a.auditId)) s.audits ∧
    (deleteProject s projectId u).projectAudits =
      kvDelete s.projectAudits ("project_audits:" ++ projectId) := by
  unfold deleteProject
  dsimp only
  split <;> exact ⟨rfl, rfl, rfl⟩

/-- C8 counterexample: a userId different from the project's owner still
deletes the project record and its audit records. -/
theorem deleteProject_foreign_caller_cex :
    (kvGet delStore.projects "project:p1").map Project.userId = some "u1" ∧
    "intruder" ≠ "u1" ∧
    kvGet (deleteProject delStore "p1" "intruder").projects "project:p1" = none ∧
    kvGet (deleteProject delStore "p1" "intruder").audits "audit:a1" = none := by
  decide

/-- C8 (amended): `deleteProject` never compares the caller-supplied userId
against the project's owner — it removes the project record, its audit
records and the audit index for every caller, and the userId argument only
selects which user's project-ID index gets filtered. -/
theorem deleteProject_ignores_caller_identity
    (s : Store) (projectId userId : String) :
    kvGet (deleteProject s projectId userId).projects
      ("project:" ++ projectId) = none ∧
    kvGet (deleteProject s projectId userId).projectAudits
      ("project_audits:" ++ projectId) = none ∧
    (∀ u1 u2 : String,
      (deleteProject s projectId u1).projects =
        (deleteProject s projectId u2).projects ∧
      (deleteProject s projectId u1).audits =
        (deleteProject s projectId u2).audits ∧
      (deleteProject s projectId u1).projectAudits =
        (deleteProject s projectId u2).projectAudits) := by
  refine ⟨?_, ?_, fun u1 u2 => ⟨?_, ?_, ?_⟩⟩
  · rw [(deleteProject_fields s projectId userId).1, kvGet_kvDelete, if_pos rfl]
  · rw [(deleteProject_fields s projectId userId).2.2, kvGet_kvDelete, if_pos rfl]
  · rw [(deleteProject_fields s projectId u1).1, (deleteProject_fields s projectId u2).1]
  · rw [(deleteProject_fields s projectId u1).2.1, (deleteProject_fields s projectId u2).2.1]
  · rw [(deleteProject_fields s projectId u1).2.2, (deleteProject_fields s projectId u2).2.2]

/-- Store well-formedness maintained by `saveAudit`: every audit record is
stored under the key built from its own `auditId`. -/
def auditKeysCoherent (s : Store) : Prop :=
  ∀ p ∈ s.audits, p.1 = "audit:" ++ p.2.auditId

/-- In a coherent store, a successful audit lookup pins the key to the
record's `auditId`. -/
theorem kvGet_audits_key_eq {s : Store} {k : String} {r : AuditRecord}
    (hco : auditKeysCoherent s) (h : kvGet s.audits k = some r) :
    k = "audit:" ++ r.auditId := by
  unfold kvGet at h
  rcases hfind : List.find? (fun p => p.1 == k) s.audits with _ | q
  · rw [hfind] at h
    exact Option.noConfusion h
  · rw [hfind] at h
    have h2 : q.2 = r := Option.some.inj h
    have hq := List.find?_some hfind
    have hmem := List.mem_of_find?_eq_some hfind
    have hkey := hco q hmem
    rw [h2] at hkey
    rw [← hkey]
    exact (beq_iff_eq.mp hq).symm

/-- C9: deleting a project removes every audit record referenced by the
project's audit index, removes the audit index and the project record, and a
subsequent `getProjectAudits` for that project returns the empty list. -/
theorem deleteProject_cascade_complete
    (s : Store) (projectId userId : String) (hco : auditKeysCoherent s) :
    (∀ ids, kvGet s.projectAudits ("project_audits:" ++ projectId) = some ids →
      ∀ i ∈ ids,
        kvGet (deleteProject s projectId userId).audits ("audit:" ++ i) = none) ∧
    kvGet (deleteProject s projectId userId).projectAudits
      ("project_audits:" ++ projectId) = none ∧
    kvGet (deleteProject s projectId userId).projects
      ("project:" ++ projectId) = none ∧
    getProjectAudits (deleteProject s projectId userId) projectId = [] := by
  refine ⟨?_, ?_, ?_, ?_⟩
  · intro ids hids i hi
    rw [(deleteProject_fields s projectId userId).2.1, kvGet_foldl_delete_audits]
    rcases hr : kvGet s.audits ("audit:" ++ i) with _ | r
    · split <;> rfl
    · have hkey := kvGet_audits_key_eq hco hr
      have hmemfm : r ∈ ids.filterMap (fun i => kvGet s.audits ("audit:" ++ i)) :=
        List.mem_filterMap.mpr ⟨i, hi, hr⟩
      have hmem : r ∈ getProjectAudits s projectId := by
        unfold getProjectAudits
        rw [hids]
        exact mem_sortByVersionDesc.mpr hmemfm
      rw [if_pos ⟨r, hmem, hkey.symm⟩]
  · rw [(deleteProject_fields s projectId userId).2.2, kvGet_kvDelete, if_pos rfl]
  · rw [(deleteProject_fields s projectId userId).1, kvGet_kvDelete, if_pos rfl]
  · unfold getProjectAudits
    rw [(deleteProject_fields s projectId userId).2.2, kvGet_kvDelete, if_pos rfl]

/-- Witness for C9 at the concrete `delStore`. -/
theorem deleteProject_cascade_complete_witness :
    auditKeysCoherent delStore ∧
    kvGet (deleteProject delStore "p1" "u1").audits ("audit:" ++ "a1") = none ∧
    kvGet (deleteProject delStore "p1" "u1").projects "project:p1" = none ∧
    getProjectAudits (deleteProject delStore "p1" "u1") "p1" = [] := by
  have hco : auditKeysCoherent delStore := by
    unfold auditKeysCoherent
    decide
  have h := deleteProject_cascade_complete delStore "p1" "u1" hco
  exact ⟨hco, h.1 ["a1"] (by decide) "a1" (by decide), h.2.2.1, h.2.2.2⟩

/-- The login rate-limit gate is open for this email at time `now`: no
tracked attempts, fewer than the threshold, or the lockout window elapsed. -/
def rateLimitOpen (st : AuthState) (emailLower : String) (now : Nat) : Bool :=
  match kvGet st.loginAttempts emailLower with
  | none => true
  | some (c, l) =>
    decide (c < MAX_LOGIN_ATTEMPTS) || decide (LOCKOUT_DURATION ≤ now - l)

/-- Both failure modes of the try body (unknown email, wrong password)
produce the identical generic error value. -/
theorem loginTryBody_fst_error
    (st : AuthState) (emailLower password : String) (now : Nat) (nowIso : String) :
    (kvGet st.store.emailIndex ("user_email:" ++ emailLower) = none →
      (loginTryBody st emailLower password now nowIso).1 =
        Except.error "Invalid email or password") ∧
    (∀ (userId : String) (user : User),
      kvGet st.store.emailIndex ("user_email:" ++ emailLower) = some userId →
      kvGet st.store.users ("user:" ++ userId) = some user →
      hashPassword password ≠ user.passwordHash →
      (loginTryBody st emailLower password now nowIso).1 =
        Except.error "Invalid email or password") := by
  constructor
  · intro hidx
    unfold loginTryBody
    rw [hidx]
  · intro userId user hidx huser hpw
    unfold loginTryBody
    rw [hidx]
    dsimp only
    rw [huser]
    dsimp only
    rw [if_pos hpw]

/-- C7: for every non-rate-limited login attempt, an unknown email and a
known email with a wrong password fail with the same single generic error
value `Invalid email or password`. -/
theorem login_failure_single_generic_error
    (st : AuthState) (email password : String) (now : Nat) (nowIso : String)
    (hrl : rateLimitOpen st (strToLower email) now = true) :
    (kvGet st.store.emailIndex ("user_email:" ++ strToLower email) = none →
      (loginUser st email password now nowIso).1 =
        Except.error "Invalid email or password") ∧
    (∀ (userId : String) (user : User),
      kvGet st.store.emailIndex ("user_email:" ++ strToLower email) = some userId →
      kvGet st.store.users ("user:" ++ userId) = some user →
      hashPassword password ≠ user.passwordHash →
      (loginUser st email password now nowIso).1 =
        Except.error "Invalid email or password") := by
  obtain ⟨st', hstore, heq⟩ : ∃ st' : AuthState, st'.store = st.store ∧
      (loginUser st email password now nowIso).1 =
        (loginTryBody st' (strToLower email) password now nowIso).1 := by
    unfold loginUser
    dsimp only
    unfold rateLimitOpen at hrl
    rcases ha : kvGet st.loginAttempts (strToLower email) with _ | cl
    · exact ⟨st, rfl, rfl⟩
    · obtain ⟨c, l⟩ := cl
      rw [ha] at hrl
      dsimp only at hrl
      simp only [Bool.or_eq_true, decide_eq_true_eq] at hrl
      dsimp only
      by_cases hc : MAX_LOGIN_ATTEMPTS ≤ c
      · have hl : LOCKOUT_DURATION ≤ now - l := by
          rcases hrl with h1 | h2
          · omega
          · exact h2
        rw [if_pos hc, if_neg (by omega : ¬ now - l < LOCKOUT_DURATION)]
        exact ⟨{ st with loginAttempts := kvDelete st.loginAttempts (strToLower email) },
          rfl, rfl⟩
      · rw [if_neg hc]
        exact ⟨st, rfl, rfl⟩
  rw [heq]
  have h := loginTryBody_fst_error st' (strToLower email) password now nowIso
  rw [hstore] at h
  exact h

/-- Witness for C7: in `authSt`, a login with an unregistered email and a
login with the registered email but a wrong password both return the same
generic error. -/
theorem login_failure_single_generic_error_witness :
    (loginUser authSt "ghost@x.com" "pw" 0 "i").1 =
      Except.error "Invalid email or password" ∧
    (loginUser authSt "alice@x.com" "wrong" 0 "i").1 =
      Except.error "Invalid email or password" :=
  ⟨(login_failure_single_generic_error authSt "ghost@x.com" "pw" 0 "i"
      (by decide)).1 (by decide),
   (login_failure_single_generic_error authSt "alice@x.com" "wrong" 0 "i"
      (by decide)).2 "uA" userA (by decide) (by decide) (by decide)⟩

/-- C6: with five or more tracked failed attempts for an email, a further
attempt inside the 15-minute window fails with the rate-limit error carrying
the remaining wait, even when the password is correct and the attempt does
not change the state; once the window has elapsed, a correct password
succeeds and clears the attempt counter; and each non-rate-limited failed
attempt increments the tracked counter by one. -/
theorem login_lockout_and_recovery
    (st : AuthState) (email password : String)
    (count lastAttempt : Nat)
    (hAtt : kvGet st.loginAttempts (strToLower email) = some (count, lastAttempt))
    (hCount : MAX_LOGIN_ATTEMPTS ≤ count)
    (userId : String) (user : User)
    (hIdx : kvGet st.store.emailIndex
      ("user_email:" ++ strToLower email) = some userId)
    (hUser : kvGet st.store.users ("user:" ++ userId) = some user)
    (hPw : hashPassword password = user.passwordHash) :
    (∀ (now : Nat) (nowIso : String), now - lastAttempt < LOCKOUT_DURATION →
      (loginUser st email password now nowIso).1 =
        Except.error ("Too many login attempts. Please try again in " ++
          toString ((LOCKOUT_DURATION - (now - lastAttempt) + 59999) / 60000) ++
          " minutes.") ∧
      (loginUser st email password now nowIso).2 = st) ∧
    (∀ (now : Nat) (nowIso : String), LOCKOUT_DURATION ≤ now - lastAttempt →
      (loginUser st email password now nowIso).1 =
        Except.ok { user with lastLoginAt := nowIso } ∧
      kvGet (loginUser st email password now nowIso).2.loginAttempts
        (strToLower email) = none) ∧
    (∀ (st' : AuthState) (pw : String) (now : Nat) (nowIso : String) (c l : Nat),
      kvGet st'.loginAttempts (strToLower email) = some (c, l) →
      c < MAX_LOGIN_ATTEMPTS →
      hashPassword pw ≠ user.passwordHash →
      kvGet st'.store.emailIndex
        ("user_email:" ++ strToLower email) = some userId →
      kvGet st'.store.users ("user:" ++ userId) = some user →
      kvGet (loginUser st' email pw now nowIso).2.loginAttempts (strToLower email) =
        some (c + 1, now)) := by
  refine ⟨?_, ?_, ?_⟩
  · intro now nowIso hwin
    unfold loginUser
    dsimp only
    rw [hAtt]
    dsimp only
    rw [if_pos hCount, if_pos hwin]
    exact ⟨rfl, rfl⟩
  · intro now nowIso hwin
    unfold loginUser
    dsimp only
    rw [hAtt]
    dsimp only
    rw [if_pos hCount, if_neg (by omega : ¬ now - lastAttempt < LOCKOUT_DURATION)]
    unfold loginTryBody
    dsimp only
    rw [hIdx]
    dsimp only
    rw [hUser]
    dsimp only
    rw [if_neg (fun hne => hne hPw)]
    refine ⟨rfl, ?_⟩
    dsimp only
    rw [kvGet_kvDelete, if_pos rfl]
  · intro st' pw now nowIso c l hAtt' hc hpw hidx' huser'
    unfold loginUser
    dsimp only
    rw [hAtt']
    dsimp only
    rw [if_neg (by omega : ¬ MAX_LOGIN_ATTEMPTS ≤ c)]
    unfold loginTryBody
    dsimp only
    rw [hidx']
    dsimp only
    rw [huser']
    dsimp only
    rw [if_pos hpw]
    dsimp only
    rw [hAtt', kvGet_kvSet, if_pos rfl]
    rfl

/-- Witness for C6: five concrete consecutive failed logins for
`alice@x.com`, a rate-limited sixth attempt with the correct password inside
the window, and a successful reset once the window has elapsed. -/
theorem login_lockout_and_recovery_witness :
    kvGet failSt5.loginAttempts (strToLower "alice@x.com") = some (5, 5000) ∧
    (loginUser failSt5 "alice@x.com" "right" 6000 "i").1 =
      Except.error "Too many login attempts. Please try again in 15 minutes." ∧
    (loginUser failSt5 "alice@x.com" "right" 905000 "i2").1 =
      Except.ok { userA with lastLoginAt := "i2" } ∧
    kvGet (loginUser failSt5 "alice@x.com" "right" 905000 "i2").2.loginAttempts
      (strToLower "alice@x.com") = none := by
  have h := login_lockout_and_recovery failSt5 "alice@x.com" "right" 5 5000
    (by decide) (by decide) "uA" userA (by decide) (by decide) (by decide)
  refine ⟨by decide, ?_, (h.2.1 905000 "i2" (by decide)).1,
    (h.2.1 905000 "i2" (by decide)).2⟩
  exact ((h.1 6000 "i" (by decide)).1).trans (by decide)
